import Mathlib

/-!
Shallow embedding of the remote job-execution orchestrator in
`run_tests.py` (the core of Sleitnick/RbxUtil's CI tooling), together
with proofs of the behavioural properties stated in the specification.

The Python program performs I/O (HTTP requests, the wall clock, `print`,
`exit`).  The embedding makes those effects explicit parameters and
results:

* the HTTP responses are parameters (`submit` for the one POST of
  `run_script`, `polls i` for the `i`-th GET of `get_script_status`);
  a `requests` failure (network error or `raise_for_status`) is an
  `Except.error` carrying a `TransportError`;
* the wall clock is a parameter `elapsed : Nat → ℚ`, where `elapsed i`
  is the value of `time.time() - start` at the timeout check of loop
  iteration `i`; since each iteration ends with
  `time.sleep(POLL_STATUS_INTERVAL)` and every other step takes
  nonnegative time, admissible clocks satisfy `Clock3`;
* everything printed is collected into lists (`notifs` for the
  `State changed:` lines of the loop, `output` for the rest);
* `exit(n)` becomes a returned exit code; an uncaught Python exception
  (`KeyError`, `IndexError`, a `requests` exception) is an
  `Except.error` result, which also makes the process exit non-zero;
* the unbounded `while True:` loop is given fuel; `none` means the fuel
  ran out, and the termination theorems show enough fuel exists.
-/

deriving instance DecidableEq for Except

/-- `POLL_STATUS_INTERVAL = 3` — seconds between status polling
(`run_tests.py` line 9). -/
def POLL_STATUS_INTERVAL : ℚ := 3

/-- `ROOT_API` (`run_tests.py` line 11). -/
def ROOT_API : String := "https://apis.roblox.com/cloud/v2"

/-- A `requests` failure: network failure or a non-2xx status surfaced
by `raise_for_status()`. -/
structure TransportError where
  msg : String
deriving DecidableEq, Repr

/-- The decoded JSON body of a successful submission response; the code
reads only its `path` field (`run_tests.py` line 33). -/
structure SubmitResponse where
  path : String
deriving DecidableEq, Repr

/-- One entry of `data["output"]["results"]`; the code reads the fields
`AllPass` and `Output` (`run_tests.py` lines 87, 89). -/
structure TestResult where
  AllPass : Bool
  Output : String
deriving DecidableEq, Repr

/-- The value of `data["output"]`: a JSON object whose `results` field
is an array (`run_tests.py` line 86). -/
structure OutputPayload where
  results : List TestResult
deriving DecidableEq, Repr

/-- The decoded JSON body of a status response.  `state` is the raw
state tag string; `output` / `error` are `none` when the corresponding
key is absent (reading an absent key raises `KeyError` in Python). -/
structure JobStatus where
  state : String
  output : Option OutputPayload
  error : Option String
deriving DecidableEq, Repr

/-- An uncaught Python exception terminating `run_tests`. -/
inductive PyError where
  /-- a `requests` exception propagated out of `run_script` or
  `get_script_status` -/
  | transport (e : TransportError)
  /-- `KeyError` on reading the named absent key -/
  | keyError (field : String)
  /-- `IndexError` on `data["output"]["results"][0]` -/
  | indexError
deriving DecidableEq, Repr

/-- `run_script` (`run_tests.py` lines 15–35): POST the script, raise
on transport failure, and build the status URL from the response's
`path`.  The HTTP response (or its failure) is the parameter. -/
def run_script (response : Except TransportError SubmitResponse) :
    Except TransportError String :=
  match response with
  | .error e => .error e
  | .ok res_json => .ok (ROOT_API ++ "/" ++ res_json.path ++ "?view=BASIC")

/-- `get_script_status` (`run_tests.py` lines 38–43): GET the status
URL, raise on transport failure, return the decoded body.  The HTTP
response is the parameter. -/
def get_script_status (response : Except TransportError JobStatus) :
    Except TransportError JobStatus :=
  response

/-- The text printed by `print(f"State changed: {state}")`
(`run_tests.py` line 56). -/
def stateChangedMsg (state : String) : String :=
  "State changed: " ++ state

/-- The terminal-state test of `run_tests.py` line 59:
`state == "COMPLETE" or state == "FAILED" or state == "CANCELLED"`. -/
def isTerminal (state : String) : Bool :=
  state == "COMPLETE" || state == "FAILED" || state == "CANCELLED"

/-- How one run of `await_script_completion`'s loop ended. -/
inductive AwaitOut where
  /-- `break` at a terminal state; `data` is the last status
  (`run_tests.py` lines 59–60, 69) -/
  | finished (data : JobStatus)
  /-- the timeout branch: `print("timeout"); exit(1)`
  (`run_tests.py` lines 63–65) -/
  | timedOut
  /-- a `requests` exception escaped from `get_script_status` -/
  | raised (e : TransportError)
deriving DecidableEq, Repr

/-- The observable behaviour of one run of the polling loop: how it
ended, how many `fetchStatus` polls it performed, and the
`State changed:` lines it printed, in order. -/
structure AwaitTrace where
  out : AwaitOut
  pollCount : Nat
  notifs : List String
deriving DecidableEq, Repr

/-- The `while True:` loop of `await_script_completion`
(`run_tests.py` lines 51–67), with fuel.  `polls j` is the response of
the `j`-th `get_script_status` call, `elapsed j` the value of
`time.time() - start` at iteration `j`'s timeout check, `i` the index
of the next poll, `last_state` and `notifs` the loop state so far.
Returns `none` when the fuel runs out. -/
def awaitAux (polls : Nat → Except TransportError JobStatus)
    (elapsed : Nat → ℚ) (timeout : ℚ) :
    Nat → Nat → String → List String → Option AwaitTrace
  | 0, _, _, _ => none
  | fuel + 1, i, last_state, notifs =>
    match get_script_status (polls i) with
    | .error e => some ⟨.raised e, i + 1, notifs⟩
    | .ok data =>
      let state := data.state
      let notifs' :=
        if state ≠ last_state then notifs ++ [stateChangedMsg state]
        else notifs
      let last' := if state ≠ last_state then state else last_state
      if isTerminal state then
        some ⟨.finished data, i + 1, notifs'⟩
      else if elapsed i > timeout then
        some ⟨.timedOut, i + 1, notifs'⟩
      else
        awaitAux polls elapsed timeout fuel (i + 1) last' notifs'

/-- `await_script_completion` (`run_tests.py` lines 46–69): run the
loop from the start with `last_state = ""` and nothing printed yet. -/
def await_script_completion (polls : Nat → Except TransportError JobStatus)
    (elapsed : Nat → ℚ) (timeout : ℚ) (fuel : Nat) : Option AwaitTrace :=
  awaitAux polls elapsed timeout fuel 0 "" []

/-- Admissible clocks: `elapsed i` is `time.time() - start` at the
timeout check of iteration `i`.  Every step takes nonnegative time and
each iteration ends with `time.sleep(POLL_STATUS_INTERVAL)` where
`POLL_STATUS_INTERVAL = 3`, so `elapsed` starts nonnegative and grows
by at least `3` per iteration. -/
def Clock3 (elapsed : Nat → ℚ) : Prop :=
  0 ≤ elapsed 0 ∧ ∀ i, elapsed i + 3 ≤ elapsed (i + 1)

/-- The `match data["state"]:` block and final print of `run_tests`
(`run_tests.py` lines 84–102): the lines printed and the resulting
process exit (`Except.error` = uncaught Python exception). -/
def finalize (data : JobStatus) : List String × Except PyError Nat :=
  match data.state with
  | "COMPLETE" =>
    match data.output with
    | none => ([], .error (.keyError "output"))
    | some payload =>
      match payload.results with
      | [] => ([], .error .indexError)
      | result :: _ =>
        if result.AllPass then ([result.Output, "All tests passed"], .ok 0)
        else ([result.Output], .ok 1)
  | "FAILED" =>
    match data.error with
    | none => ([], .error (.keyError "error"))
    | some e => ([e], .ok 1)
  | "CANCELLED" => (["Cancelled"], .ok 1)
  | _ => (["All tests passed"], .ok 0)

/-- The observable behaviour of one whole `run_tests` invocation. -/
structure RunResult where
  /-- number of `get_script_status` calls performed -/
  pollCount : Nat
  /-- the `State changed:` lines, in order -/
  notifs : List String
  /-- everything else printed, in order -/
  output : List String
  /-- `Except.ok n` = the process exits with code `n`;
  `Except.error e` = an uncaught exception terminates it -/
  exit : Except PyError Nat
deriving DecidableEq, Repr

/-- The process exit code: `exit(n)` gives `n`, an uncaught Python
exception makes the interpreter exit with code 1. -/
def exitCode : Except PyError Nat → Nat
  | .ok n => n
  | .error _ => 1

/-- `run_tests` (`run_tests.py` lines 72–102): submit via `run_script`
(propagating its exception), run `await_script_completion` with the
hard-coded 60-second timeout, then finalize.  Argument parsing and the
environment lookup are I/O outside the model; the deciding inputs are
the submission response and the poll responses. -/
def run_tests (submit : Except TransportError SubmitResponse)
    (polls : Nat → Except TransportError JobStatus)
    (elapsed : Nat → ℚ) (fuel : Nat) : Option RunResult :=
  match run_script submit with
  | .error e => some ⟨0, [], [], .error (.transport e)⟩
  | .ok _get_status_url =>
    match await_script_completion polls elapsed 60 fuel with
    | none => none
    | some t =>
      match t.out with
      | .raised e => some ⟨t.pollCount, t.notifs, [], .error (.transport e)⟩
      | .timedOut => some ⟨t.pollCount, t.notifs, ["timeout"], .ok 1⟩
      | .finished data =>
        let fin := finalize data
        some ⟨t.pollCount, t.notifs, fin.1, fin.2⟩

/-! ### Specification-side definitions

The spec's Monitor contract is `run(request, deadline) -> Verdict` with
`Verdict ∈ {Pass, Fail(message), Error(message)}`.  The code has no
such type — only prints and exit codes — so for the refinement claims
the verdict classifier below is written from the spec's finalization
table (§4.2) and compared against the code's observable behaviour. -/

/-- The spec's verdict type: `Verdict ∈ {Pass, Fail(message),
Error(message)}` (spec §4.2). -/
inductive Verdict where
  | pass
  | fail (msg : String)
  | error (msg : String)
deriving DecidableEq, Repr

/-- Written from the spec's finalization table (§4.2), not from the
code: COMPLETE maps through the first result entry's pass indicator to
Pass or Fail, FAILED to Error with the error payload's message,
CANCELLED to Error; a malformed COMPLETE payload has no verdict
(`none`), matching the spec's MalformedResponse note (§9). -/
def specVerdict (data : JobStatus) : Option Verdict :=
  match data.state with
  | "COMPLETE" =>
    match data.output with
    | none => none
    | some payload =>
      match payload.results with
      | [] => none
      | result :: _ =>
        if result.AllPass then some .pass else some (.fail result.Output)
  | "FAILED" =>
    match data.error with
    | none => none
    | some e => some (.error e)
  | "CANCELLED" => some (.error "Cancelled")
  | _ => none

/-! ### Loop lemmas -/

/-- Under `Clock3`, at least `3·i` seconds have elapsed by the timeout
check of iteration `i` (the loop has slept `i` times by then). -/
theorem clock3_ge (elapsed : Nat → ℚ) (h : Clock3 elapsed) :
    ∀ i : Nat, 3 * (i : ℚ) ≤ elapsed i := by
  intro i
  induction i with
  | zero => simpa using h.1
  | succ n ih =>
    have h2 := h.2 n
    push_cast
    linarith

/-- If the `k`-th poll is the first to return a terminal state, the
loop performs at most `k + 1` polls; it either times out strictly
earlier or stops exactly at that poll with its data, and when no
timeout check before `k` fires it certainly stops at that poll. -/
theorem awaitAux_first_terminal
    (polls : Nat → Except TransportError JobStatus) (elapsed : Nat → ℚ)
    (timeout : ℚ) (k : Nat) (d : JobStatus)
    (hk : polls k = Except.ok d) (hterm : isTerminal d.state = true)
    (hbefore : ∀ j, j < k → ∃ d', polls j = Except.ok d' ∧ isTerminal d'.state = false) :
    ∀ fuel i last_state notifs, i ≤ k → k < i + fuel →
      ∃ t, awaitAux polls elapsed timeout fuel i last_state notifs = some t ∧
        t.pollCount ≤ k + 1 ∧
        (t.out = AwaitOut.timedOut ∨
          (t.out = AwaitOut.finished d ∧ t.pollCount = k + 1)) ∧
        ((∀ j, j < k → ¬ elapsed j > timeout) →
          t.out = AwaitOut.finished d ∧ t.pollCount = k + 1) := by
  intro fuel
  induction fuel with
  | zero => intro i _ _ hik hfuel; omega
  | succ fuel ih =>
    intro i last_state notifs hik hfuel
    rcases Nat.eq_or_lt_of_le hik with hik' | hik'
    · subst hik'
      refine ⟨⟨AwaitOut.finished d, i + 1,
        if d.state ≠ last_state then notifs ++ [stateChangedMsg d.state] else notifs⟩,
        ?_, le_refl _, Or.inr ⟨rfl, rfl⟩, fun _ => ⟨rfl, rfl⟩⟩
      simp only [awaitAux, get_script_status, hk, hterm, if_true]
    · obtain ⟨d', hd', hnt⟩ := hbefore i hik'
      by_cases htime : elapsed i > timeout
      · refine ⟨⟨AwaitOut.timedOut, i + 1,
          if d'.state ≠ last_state then notifs ++ [stateChangedMsg d'.state] else notifs⟩,
          ?_, show i + 1 ≤ k + 1 by omega, Or.inl rfl,
          fun hq => absurd htime (hq i hik')⟩
        simp only [awaitAux, get_script_status, hd', hnt, Bool.false_eq_true,
          if_false, htime, if_true]
      · obtain ⟨t, ht, hcount, hout, hnever⟩ :=
          ih (i + 1) (if d'.state ≠ last_state then d'.state else last_state)
            (if d'.state ≠ last_state then notifs ++ [stateChangedMsg d'.state] else notifs)
            (by omega) (by omega)
        refine ⟨t, ?_, hcount, hout, hnever⟩
        simp only [awaitAux, get_script_status, hd', hnt, Bool.false_eq_true,
          if_false, htime]
        exact ht

/-- If no poll ever returns a terminal state then, for any `N` whose
`N` sleeps already exceed the timeout, the loop stops with the timeout
outcome after at most `N + 1` polls (fuel `> N` suffices). -/
theorem awaitAux_timeout_bound
    (polls : Nat → Except TransportError JobStatus) (elapsed : Nat → ℚ)
    (timeout : ℚ) (N : Nat) (hN : timeout < 3 * (N : ℚ))
    (hclock : Clock3 elapsed)
    (hpolls : ∀ j, ∃ d, polls j = Except.ok d ∧ isTerminal d.state = false) :
    ∀ fuel i last_state notifs, i ≤ N → N < i + fuel →
      ∃ t, awaitAux polls elapsed timeout fuel i last_state notifs = some t ∧
        t.out = AwaitOut.timedOut ∧ t.pollCount ≤ N + 1 := by
  intro fuel
  induction fuel with
  | zero => intro i _ _ hik hfuel; omega
  | succ fuel ih =>
    intro i last_state notifs hiN hfuel
    obtain ⟨d, hd, hnt⟩ := hpolls i
    by_cases htime : elapsed i > timeout
    · refine ⟨⟨AwaitOut.timedOut, i + 1,
        if d.state ≠ last_state then notifs ++ [stateChangedMsg d.state] else notifs⟩,
        ?_, rfl, show i + 1 ≤ N + 1 by omega⟩
      simp only [awaitAux, get_script_status, hd, hnt, Bool.false_eq_true,
        if_false, htime, if_true]
    · have hiN' : i < N := by
        rcases Nat.eq_or_lt_of_le hiN with h | h
        · exfalso
          apply htime
          subst h
          have := clock3_ge elapsed hclock i
          linarith
        · exact h
      obtain ⟨t, ht, hto, hc⟩ :=
        ih (i + 1) (if d.state ≠ last_state then d.state else last_state)
          (if d.state ≠ last_state then notifs ++ [stateChangedMsg d.state] else notifs)
          (by omega) (by omega)
      refine ⟨t, ?_, hto, hc⟩
      simp only [awaitAux, get_script_status, hd, hnt, Bool.false_eq_true,
        if_false, htime]
      exact ht

/-- The `State changed:` lines the loop prints while consuming the
given list of state tags, starting from previous tag `last_state`: a
line is emitted for a tag exactly when it differs from the tag
observed just before it. -/
def notifList (last_state : String) : List String → List String
  | [] => []
  | s :: rest =>
    (if s ≠ last_state then [stateChangedMsg s] else []) ++ notifList s rest

/-- When every poll succeeds, the loop's printed notifications are
exactly `notifList` of the consumed state tags. -/
theorem awaitAux_notifs (statuses : Nat → JobStatus) (elapsed : Nat → ℚ)
    (timeout : ℚ) :
    ∀ fuel i last_state notifs t,
      awaitAux (fun j => Except.ok (statuses j)) elapsed timeout fuel
          i last_state notifs = some t →
      i < t.pollCount ∧
      t.notifs = notifs ++ notifList last_state
        ((List.range' i (t.pollCount - i)).map fun j => (statuses j).state) := by
  intro fuel
  induction fuel with
  | zero => intro i last_state notifs t h; simp [awaitAux] at h
  | succ fuel ih =>
    intro i last_state notifs t h
    simp only [awaitAux, get_script_status] at h
    by_cases hterm : isTerminal (statuses i).state
    · rw [if_pos hterm] at h
      obtain rfl : AwaitTrace.mk (.finished (statuses i)) (i + 1)
          (if (statuses i).state ≠ last_state
            then notifs ++ [stateChangedMsg (statuses i).state] else notifs) = t :=
        Option.some.inj h
      refine ⟨Nat.lt_succ_self i, ?_⟩
      have : i + 1 - i = 1 := by omega
      rw [this]
      by_cases hs : (statuses i).state ≠ last_state <;>
        simp [List.range', notifList, hs]
    · rw [if_neg hterm] at h
      by_cases htime : elapsed i > timeout
      · rw [if_pos htime] at h
        obtain rfl : AwaitTrace.mk .timedOut (i + 1)
            (if (statuses i).state ≠ last_state
              then notifs ++ [stateChangedMsg (statuses i).state] else notifs) = t :=
          Option.some.inj h
        refine ⟨Nat.lt_succ_self i, ?_⟩
        have : i + 1 - i = 1 := by omega
        rw [this]
        by_cases hs : (statuses i).state ≠ last_state <;>
          simp [List.range', notifList, hs]
      · rw [if_neg htime] at h
        obtain ⟨hlt, hn⟩ := ih (i + 1) _ _ t h
        refine ⟨by omega, ?_⟩
        have hsub : t.pollCount - i = (t.pollCount - (i + 1)) + 1 := by omega
        rw [hsub, List.range'_succ, List.map_cons, notifList, hn]
        by_cases hs : (statuses i).state ≠ last_state
        · simp [hs, List.append_assoc]
        · have hs' : (statuses i).state = last_state := not_not.mp hs
          simp [hs, hs']

/-! ### Concrete fixtures

Poll sequences, statuses and clocks used to instantiate the theorems
below on explicit inputs.  `linClock` is the idealised clock in which
each iteration takes exactly the 3-second sleep and the polls
themselves return instantly. -/

def pendingStatus : JobStatus := ⟨"PENDING", none, none⟩

def processingStatus : JobStatus := ⟨"PROCESSING", none, none⟩

def okStatus : JobStatus := ⟨"COMPLETE", some ⟨[⟨true, "ok"⟩]⟩, none⟩

def failStatus : JobStatus := ⟨"COMPLETE", some ⟨[⟨false, "2 failing"⟩]⟩, none⟩

def boomStatus : JobStatus := ⟨"FAILED", none, some "boom"⟩

def linClock : Nat → ℚ := fun i => ((3 * i : Nat) : ℚ)

def pendPolls : Nat → Except TransportError JobStatus :=
  fun _ => Except.ok pendingStatus

def examplePolls : Nat → Except TransportError JobStatus := fun i =>
  Except.ok
    (if i < 2 then pendingStatus
     else if i = 2 then processingStatus else okStatus)

theorem linClock_valid : Clock3 linClock := by
  constructor
  · norm_num [linClock]
  · intro i
    simp only [linClock]
    push_cast
    ring_nf
    norm_num

/-! ### The claims -/

/-- C1: for every sequence of polled job states that contains a
terminal state (COMPLETE, FAILED, or CANCELLED), the monitor performs
no further `fetchStatus` call after the poll that first returns a
terminal state — the loop answers after at most `k + 1` polls when the
first terminal state arrives at poll `k`, stopping either at that very
poll (whereupon finalization begins on its data) or strictly earlier
on its own timeout. -/
theorem monitor_no_poll_after_first_terminal
    (polls : Nat → Except TransportError JobStatus) (elapsed : Nat → ℚ)
    (timeout : ℚ) (k : Nat) (d : JobStatus)
    (hk : polls k = Except.ok d) (hterm : isTerminal d.state = true)
    (hfirst : ∀ j, j < k → ∃ d', polls j = Except.ok d' ∧ isTerminal d'.state = false)
    (fuel : Nat) (hfuel : k < fuel) :
    ∃ t, await_script_completion polls elapsed timeout fuel = some t ∧
      t.pollCount ≤ k + 1 ∧
      (t.out = AwaitOut.timedOut ∨
        (t.out = AwaitOut.finished d ∧ t.pollCount = k + 1)) := by
  obtain ⟨t, ht, h1, h2, -⟩ :=
    awaitAux_first_terminal polls elapsed timeout k d hk hterm hfirst
      fuel 0 "" [] (Nat.zero_le k) (by omega)
  exact ⟨t, ht, h1, h2⟩

/-- Witness for C1: `examplePolls` yields PENDING, PENDING, PROCESSING
and then COMPLETE, whose first terminal state arrives at poll index 3,
so the loop answers within 4 polls. -/
theorem monitor_no_poll_after_first_terminal_witness :
    ∃ t, await_script_completion examplePolls linClock 60 4 = some t ∧
      t.pollCount ≤ 4 ∧
      (t.out = AwaitOut.timedOut ∨
        (t.out = AwaitOut.finished okStatus ∧ t.pollCount = 4)) :=
  monitor_no_poll_after_first_terminal examplePolls linClock 60 3 okStatus
    rfl rfl
    (by
      intro j hj
      interval_cases j <;> exact ⟨_, rfl, rfl⟩)
    4 (by omega)

/-- C2: for every run whose polled status reaches COMPLETE with an
output payload whose first result entry has `AllPass = true`, the
result text and "All tests passed" are printed and the process exits
with code 0; the spec-side verdict is Pass. -/
theorem run_tests_complete_allpass_exit_zero
    (submit_res : SubmitResponse)
    (polls : Nat → Except TransportError JobStatus) (elapsed : Nat → ℚ)
    (fuel : Nat) (t : AwaitTrace) (data : JobStatus)
    (r : TestResult) (rest : List TestResult)
    (hawait : await_script_completion polls elapsed 60 fuel = some t)
    (hout : t.out = AwaitOut.finished data)
    (hstate : data.state = "COMPLETE")
    (hpayload : data.output = some ⟨r :: rest⟩)
    (hpass : r.AllPass = true) :
    run_tests (Except.ok submit_res) polls elapsed fuel =
      some ⟨t.pollCount, t.notifs, [r.Output, "All tests passed"], Except.ok 0⟩ ∧
    specVerdict data = some Verdict.pass := by
  obtain ⟨s, o, err⟩ := data
  simp only at hstate hpayload
  subst hstate
  subst hpayload
  constructor
  · simp only [run_tests, run_script, hawait, hout]
    simp [finalize, hpass]
  · simp [specVerdict, hpass]

/-- Witness for C2: the spec's example — state sequence
PENDING, PENDING, PROCESSING, COMPLETE with payload
`{AllPass: true, Output: "ok"}` gives exit code 0 and verdict Pass. -/
theorem run_tests_complete_allpass_exit_zero_witness :
    run_tests (Except.ok ⟨"task-path"⟩) examplePolls linClock 100 =
      some ⟨4, [stateChangedMsg "PENDING", stateChangedMsg "PROCESSING",
        stateChangedMsg "COMPLETE"], ["ok", "All tests passed"], Except.ok 0⟩ ∧
    specVerdict okStatus = some Verdict.pass :=
  run_tests_complete_allpass_exit_zero ⟨"task-path"⟩ examplePolls linClock 100
    ⟨AwaitOut.finished okStatus, 4,
      [stateChangedMsg "PENDING", stateChangedMsg "PROCESSING",
        stateChangedMsg "COMPLETE"]⟩
    okStatus ⟨true, "ok"⟩ [] (by decide) rfl rfl rfl rfl

/-- C3: for every run whose polled status reaches COMPLETE with a
first result entry whose `AllPass` is false, the verdict is Fail — not
Error — the exit code is 1 (non-zero), and the result's output text is
printed all the same. -/
theorem run_tests_complete_failing_exit_nonzero
    (submit_res : SubmitResponse)
    (polls : Nat → Except TransportError JobStatus) (elapsed : Nat → ℚ)
    (fuel : Nat) (t : AwaitTrace) (data : JobStatus)
    (r : TestResult) (rest : List TestResult)
    (hawait : await_script_completion polls elapsed 60 fuel = some t)
    (hout : t.out = AwaitOut.finished data)
    (hstate : data.state = "COMPLETE")
    (hpayload : data.output = some ⟨r :: rest⟩)
    (hfail : r.AllPass = false) :
    run_tests (Except.ok submit_res) polls elapsed fuel =
      some ⟨t.pollCount, t.notifs, [r.Output], Except.ok 1⟩ ∧
    exitCode (Except.ok 1) ≠ 0 ∧
    specVerdict data = some (Verdict.fail r.Output) ∧
    (∀ m, specVerdict data ≠ some (Verdict.error m)) := by
  obtain ⟨s, o, err⟩ := data
  simp only at hstate hpayload
  subst hstate
  subst hpayload
  refine ⟨?_, by simp [exitCode], ?_, ?_⟩
  · simp only [run_tests, run_script, hawait, hout]
    simp [finalize, hfail]
  · simp [specVerdict, hfail]
  · simp [specVerdict, hfail]

/-- Witness for C3: the spec's example — a single COMPLETE poll with
payload `{AllPass: false, Output: "2 failing"}` prints "2 failing",
exits 1, and the verdict is Fail, not Error. -/
theorem run_tests_complete_failing_exit_nonzero_witness :
    run_tests (Except.ok ⟨"task-path"⟩) (fun _ => Except.ok failStatus)
        linClock 100 =
      some ⟨1, [stateChangedMsg "COMPLETE"], ["2 failing"], Except.ok 1⟩ ∧
    exitCode (Except.ok 1) ≠ 0 ∧
    specVerdict failStatus = some (Verdict.fail "2 failing") ∧
    (∀ m, specVerdict failStatus ≠ some (Verdict.error m)) :=
  run_tests_complete_failing_exit_nonzero ⟨"task-path"⟩
    (fun _ => Except.ok failStatus) linClock 100
    ⟨AwaitOut.finished failStatus, 1, [stateChangedMsg "COMPLETE"]⟩
    failStatus ⟨false, "2 failing"⟩ [] (by decide) rfl rfl rfl rfl

/-- C4: for every run whose poll reaches the terminal state FAILED,
the error payload's message is printed (surfaced), the exit code is 1
(non-zero), and the spec-side verdict is Error with that message. -/
theorem run_tests_failed_surfaces_error
    (submit_res : SubmitResponse)
    (polls : Nat → Except TransportError JobStatus) (elapsed : Nat → ℚ)
    (fuel : Nat) (t : AwaitTrace) (data : JobStatus) (msg : String)
    (hawait : await_script_completion polls elapsed 60 fuel = some t)
    (hout : t.out = AwaitOut.finished data)
    (hstate : data.state = "FAILED")
    (herr : data.error = some msg) :
    run_tests (Except.ok submit_res) polls elapsed fuel =
      some ⟨t.pollCount, t.notifs, [msg], Except.ok 1⟩ ∧
    exitCode (Except.ok 1) ≠ 0 ∧
    specVerdict data = some (Verdict.error msg) := by
  obtain ⟨s, o, err⟩ := data
  simp only at hstate herr
  subst hstate
  subst herr
  refine ⟨?_, by simp [exitCode], ?_⟩
  · simp only [run_tests, run_script, hawait, hout]
    simp [finalize]
  · simp [specVerdict]

/-- Witness for C4: the spec's example — terminal state FAILED with
error payload "boom" prints "boom", exits 1, verdict Error("boom"). -/
theorem run_tests_failed_surfaces_error_witness :
    run_tests (Except.ok ⟨"task-path"⟩) (fun _ => Except.ok boomStatus)
        linClock 100 =
      some ⟨1, [stateChangedMsg "FAILED"], ["boom"], Except.ok 1⟩ ∧
    exitCode (Except.ok 1) ≠ 0 ∧
    specVerdict boomStatus = some (Verdict.error "boom") :=
  run_tests_failed_surfaces_error ⟨"task-path"⟩
    (fun _ => Except.ok boomStatus) linClock 100
    ⟨AwaitOut.finished boomStatus, 1, [stateChangedMsg "FAILED"]⟩
    boomStatus "boom" (by decide) rfl rfl rfl

/-- C5: for every run whose poll sequence never returns a terminal
state, under any admissible clock the monitor stops on its own with
the timeout outcome — "timeout" is printed and the process exits 1 — an
outcome distinct from finishing on any service-reported state such as
FAILED. -/
theorem run_tests_timeout_distinct_outcome
    (submit_res : SubmitResponse)
    (polls : Nat → Except TransportError JobStatus) (elapsed : Nat → ℚ)
    (hclock : Clock3 elapsed)
    (hpolls : ∀ j, ∃ d, polls j = Except.ok d ∧ isTerminal d.state = false)
    (fuel : Nat) (hfuel : 21 < fuel) :
    ∃ t, await_script_completion polls elapsed 60 fuel = some t ∧
      t.out = AwaitOut.timedOut ∧
      (∀ d, t.out ≠ AwaitOut.finished d) ∧
      run_tests (Except.ok submit_res) polls elapsed fuel =
        some ⟨t.pollCount, t.notifs, ["timeout"], Except.ok 1⟩ ∧
      exitCode (Except.ok 1) ≠ 0 := by
  have hN : (60 : ℚ) < 3 * ((21 : Nat) : ℚ) := by push_cast; norm_num
  obtain ⟨t, ht, ho, -⟩ :=
    awaitAux_timeout_bound polls elapsed 60 21 hN hclock hpolls fuel 0 "" []
      (Nat.zero_le 21) (by omega)
  refine ⟨t, ht, ho, by simp [ho], ?_, by simp [exitCode]⟩
  simp only [run_tests, run_script, await_script_completion, ht, ho]

/-- Witness for C5: a forever-PENDING poll sequence under the
idealised clock times out with exit code 1. -/
theorem run_tests_timeout_distinct_outcome_witness :
    ∃ t, await_script_completion pendPolls linClock 60 100 = some t ∧
      t.out = AwaitOut.timedOut ∧
      (∀ d, t.out ≠ AwaitOut.finished d) ∧
      run_tests (Except.ok ⟨"task-path"⟩) pendPolls linClock 100 =
        some ⟨t.pollCount, t.notifs, ["timeout"], Except.ok 1⟩ ∧
      exitCode (Except.ok 1) ≠ 0 :=
  run_tests_timeout_distinct_outcome ⟨"task-path"⟩ pendPolls linClock
    linClock_valid (fun _ => ⟨pendingStatus, rfl, rfl⟩) 100 (by omega)

/-- C6 (amended): for every run whose poll sequence never returns a
terminal state, under any admissible clock the number of `fetchStatus`
polls performed before the monitor stops is at most
`⌈timeout / POLL_STATUS_INTERVAL⌉ + 2` — the claimed bound
`⌈timeout / POLL_STATUS_INTERVAL⌉` itself is exceeded, see the
counterexample. -/
theorem monitor_poll_bound_ceil_plus_two
    (polls : Nat → Except TransportError JobStatus) (elapsed : Nat → ℚ)
    (timeout : ℚ)
    (hclock : Clock3 elapsed)
    (hpolls : ∀ j, ∃ d, polls j = Except.ok d ∧ isTerminal d.state = false)
    (fuel : Nat) (hfuel : Nat.ceil (timeout / POLL_STATUS_INTERVAL) + 1 < fuel) :
    ∃ t, await_script_completion polls elapsed timeout fuel = some t ∧
      t.out = AwaitOut.timedOut ∧
      t.pollCount ≤ Nat.ceil (timeout / POLL_STATUS_INTERVAL) + 2 := by
  have h1 := Nat.le_ceil (timeout / POLL_STATUS_INTERVAL)
  have h2 : timeout ≤ (Nat.ceil (timeout / POLL_STATUS_INTERVAL) : ℚ) * 3 := by
    rw [← div_le_iff₀ (by norm_num : (0:ℚ) < 3)]
    simpa [POLL_STATUS_INTERVAL] using h1
  have hN : timeout <
      3 * ((Nat.ceil (timeout / POLL_STATUS_INTERVAL) + 1 : Nat) : ℚ) := by
    push_cast
    linarith
  obtain ⟨t, ht, ho, hc⟩ :=
    awaitAux_timeout_bound polls elapsed timeout
      (Nat.ceil (timeout / POLL_STATUS_INTERVAL) + 1) hN hclock hpolls
      fuel 0 "" [] (Nat.zero_le _) (by omega)
  exact ⟨t, ht, ho, by omega⟩

/-- Witness for C6 (amended): the forever-PENDING run performs at most
`⌈60 / 3⌉ + 2 = 22` polls. -/
theorem monitor_poll_bound_ceil_plus_two_witness :
    ∃ t, await_script_completion pendPolls linClock 60 100 = some t ∧
      t.out = AwaitOut.timedOut ∧
      t.pollCount ≤ Nat.ceil ((60 : ℚ) / POLL_STATUS_INTERVAL) + 2 :=
  monitor_poll_bound_ceil_plus_two pendPolls linClock 60 linClock_valid
    (fun _ => ⟨pendingStatus, rfl, rfl⟩) 100
    (by norm_num [POLL_STATUS_INTERVAL])

/-- Counterexample to C6 as stated: with the idealised clock (polls
return instantly, each iteration takes exactly the 3-second sleep) and
a forever-PENDING service, the run performs 22 `fetchStatus` polls,
exceeding the claimed bound `⌈deadline / poll_interval⌉ = ⌈60/3⌉ = 20`. -/
theorem monitor_poll_bound_ceil_counterexample :
    Clock3 linClock ∧
    (∀ j, pendPolls j = Except.ok pendingStatus ∧
      isTerminal pendingStatus.state = false) ∧
    run_tests (Except.ok ⟨"task-path"⟩) pendPolls linClock 100 =
      some ⟨22, [stateChangedMsg "PENDING"], ["timeout"], Except.ok 1⟩ ∧
    Nat.ceil ((60 : ℚ) / POLL_STATUS_INTERVAL) = 20 ∧
    ¬(22 ≤ Nat.ceil ((60 : ℚ) / POLL_STATUS_INTERVAL)) := by
  refine ⟨linClock_valid, fun j => ⟨rfl, rfl⟩, by decide, ?_, ?_⟩
  · norm_num [POLL_STATUS_INTERVAL]
  · norm_num [POLL_STATUS_INTERVAL]

/-- C7: for every run in which the submission call fails with a
`TransportError`, the run ends with that error propagated (a non-zero
process exit) and `fetchStatus` is never invoked: the poll count is 0,
whatever the poll responses would have been. -/
theorem run_tests_transport_error_skips_polling
    (e : TransportError) (polls : Nat → Except TransportError JobStatus)
    (elapsed : Nat → ℚ) (fuel : Nat) :
    run_tests (Except.error e) polls elapsed fuel =
      some ⟨0, [], [], Except.error (PyError.transport e)⟩ ∧
    exitCode (Except.error (PyError.transport e)) ≠ 0 :=
  ⟨rfl, by simp [exitCode]⟩

/-- C8: for every polled state sequence, a state-transition
notification is printed on a poll exactly when the returned state tag
differs from the previously observed tag — the printed lines are
exactly `notifList` of the consumed tags, which emits a line for a tag
iff it differs from its predecessor (initially `""`). -/
theorem notifications_fire_only_on_change
    (statuses : Nat → JobStatus) (elapsed : Nat → ℚ) (timeout : ℚ)
    (fuel : Nat) (t : AwaitTrace)
    (h : await_script_completion (fun j => Except.ok (statuses j)) elapsed
        timeout fuel = some t) :
    t.notifs = notifList ""
      ((List.range t.pollCount).map fun j => (statuses j).state) := by
  obtain ⟨-, hn⟩ := awaitAux_notifs statuses elapsed timeout fuel 0 "" [] t h
  simpa [List.range_eq_range'] using hn

def c8statuses : Nat → JobStatus := fun j =>
  if j < 2 then processingStatus else okStatus

def c8trace : AwaitTrace :=
  ⟨AwaitOut.finished okStatus, 3,
    [stateChangedMsg "PROCESSING", stateChangedMsg "COMPLETE"]⟩

/-- Witness for C8: the spec's example — the state sequence
PROCESSING, PROCESSING, COMPLETE emits exactly two notifications, not
three. -/
theorem notifications_fire_only_on_change_witness :
    await_script_completion (fun j => Except.ok (c8statuses j)) linClock 60 10 =
      some c8trace ∧
    c8trace.notifs = notifList ""
      ((List.range c8trace.pollCount).map fun j => (c8statuses j).state) ∧
    c8trace.pollCount = 3 ∧ c8trace.notifs.length = 2 :=
  ⟨by decide,
    notifications_fire_only_on_change c8statuses linClock 60 10 c8trace
      (by decide),
    rfl, rfl⟩

/-- C9: for every COMPLETE status whose output payload is missing or
whose result array is empty, finalization raises a distinct error
(`KeyError` on the absent payload, `IndexError` on the missing first
entry — the MalformedResponse condition) rather than defaulting to any
`exit(n)` path, and the spec-side classifier assigns no Pass or Fail
verdict. -/
theorem finalize_malformed_complete_is_error (data : JobStatus)
    (hstate : data.state = "COMPLETE")
    (hmal : data.output = none ∨
      ∃ payload, data.output = some payload ∧ payload.results = []) :
    ((finalize data).2 = Except.error (PyError.keyError "output") ∨
      (finalize data).2 = Except.error PyError.indexError) ∧
    (∀ n, (finalize data).2 ≠ Except.ok n) ∧
    specVerdict data = none := by
  obtain ⟨s, o, err⟩ := data
  simp only at hstate
  subst hstate
  rcases hmal with h | ⟨payload, hp, hres⟩
  · simp only at h
    subst h
    exact ⟨Or.inl rfl, by simp [finalize], rfl⟩
  · obtain ⟨rs⟩ := payload
    simp only at hp hres
    subst hp
    subst hres
    exact ⟨Or.inr rfl, by simp [finalize], rfl⟩

/-- Witness for C9: a COMPLETE status carrying no output payload. -/
theorem finalize_malformed_complete_is_error_witness :
    ((finalize ⟨"COMPLETE", none, none⟩).2 =
        Except.error (PyError.keyError "output") ∨
      (finalize ⟨"COMPLETE", none, none⟩).2 = Except.error PyError.indexError) ∧
    (∀ n, (finalize ⟨"COMPLETE", none, none⟩).2 ≠ Except.ok n) ∧
    specVerdict ⟨"COMPLETE", none, none⟩ = none :=
  finalize_malformed_complete_is_error ⟨"COMPLETE", none, none⟩ rfl
    (Or.inl rfl)

/-- C10: when the deadline has already elapsed at the poll that
returns the first terminal state (and no earlier timeout check fired),
the loop still stops on the terminal-state branch — checked before the
timeout branch within the iteration — and the run finalizes with that
state's output and exit code, not with the timeout outcome. -/
theorem terminal_state_beats_deadline
    (submit_res : SubmitResponse)
    (polls : Nat → Except TransportError JobStatus) (elapsed : Nat → ℚ)
    (k : Nat) (d : JobStatus)
    (hk : polls k = Except.ok d) (hterm : isTerminal d.state = true)
    (hbefore : ∀ j, j < k →
      ∃ d', polls j = Except.ok d' ∧ isTerminal d'.state = false)
    (hnotime : ∀ j, j < k → ¬ elapsed j > 60)
    (hlate : elapsed k > 60)
    (fuel : Nat) (hfuel : k < fuel) :
    ∃ t, await_script_completion polls elapsed 60 fuel = some t ∧
      t.out = AwaitOut.finished d ∧ t.pollCount = k + 1 ∧
      t.out ≠ AwaitOut.timedOut ∧
      run_tests (Except.ok submit_res) polls elapsed fuel =
        some ⟨k + 1, t.notifs, (finalize d).1, (finalize d).2⟩ := by
  obtain ⟨t, ht, -, -, hfin⟩ :=
    awaitAux_first_terminal polls elapsed 60 k d hk hterm hbefore fuel 0 "" []
      (Nat.zero_le k) (by omega)
  obtain ⟨ho, hc⟩ := hfin hnotime
  refine ⟨t, ht, ho, hc, by simp [ho], ?_⟩
  simp only [run_tests, run_script, await_script_completion, ht, ho, hc]

def c10polls : Nat → Except TransportError JobStatus := fun i =>
  Except.ok (if i = 0 then pendingStatus else okStatus)

/-- A clock in which the deadline is already past (100 s elapsed) by
the second poll: the poll itself was slow, the deadline was not. -/
def lateClock : Nat → ℚ := fun i => if i = 0 then 0 else 100

/-- Witness for C10: PENDING then COMPLETE, with 100 s on the clock at
the COMPLETE poll — well past the 60 s deadline — still finalizes on
the COMPLETE data. -/
theorem terminal_state_beats_deadline_witness :
    ∃ t, await_script_completion c10polls lateClock 60 5 = some t ∧
      t.out = AwaitOut.finished okStatus ∧ t.pollCount = 2 ∧
      t.out ≠ AwaitOut.timedOut ∧
      run_tests (Except.ok ⟨"task-path"⟩) c10polls lateClock 5 =
        some ⟨2, t.notifs, (finalize okStatus).1, (finalize okStatus).2⟩ :=
  terminal_state_beats_deadline ⟨"task-path"⟩ c10polls lateClock 1 okStatus
    rfl rfl
    (by intro j hj; interval_cases j; exact ⟨pendingStatus, rfl, rfl⟩)
    (by intro j hj; interval_cases j; norm_num [lateClock])
    (by norm_num [lateClock])
    5 (by omega)
